import Mathlib

/-!
Verification of the Water_Quality_Prediction repository's rule-based
prediction engine against its natural-language specification.

Shallow embedding of the Python scripts under `backend/python-scripts/`:
sensor values are rationals (ℚ), CSV cells are `Option ℚ` (none = NaN),
risk scores are naturals, result envelopes are explicit structures.
-/

/-- A canonical sensor reading: the five parameters every path operates on. -/
structure SensorData where
  pH : ℚ
  Temperature : ℚ
  TDS : ℚ
  Turbidity : ℚ
  DO : ℚ
deriving Repr, DecidableEq

/-- A sensor dict in which TDS, Turbidity and DO may be absent, as accepted
by `assess_risk_from_sensor` in predict_sensor_only.py (its `if 'TDS' in data`
guards). -/
structure SensorDict where
  pH : ℚ
  Temperature : ℚ
  TDS : Option ℚ
  Turbidity : Option ℚ
  DO : Option ℚ
deriving Repr, DecidableEq

/-! ### Per-parameter risk contributions

The two-tier threshold bands are character-identical in
predict_hybrid.py `assess_risk`, predict_sensor_only.py
`assess_risk_from_sensor` and predict_image_only.py `assess_risk_from_params`;
they are defined once here and used by all three embeddings. -/

/-- pH band: `+3` if pH < 6.0 or pH > 9.0, `+1` if pH < 6.5 or pH > 8.5. -/
def pHRisk (v : ℚ) : ℕ :=
  if v < 6 ∨ v > 9 then 3 else if v < 6.5 ∨ v > 8.5 then 1 else 0

/-- Temperature band: `+3` outside [10, 35], `+1` outside [15, 30]. -/
def temperatureRisk (v : ℚ) : ℕ :=
  if v < 10 ∨ v > 35 then 3 else if v < 15 ∨ v > 30 then 1 else 0

/-- TDS band: `+3` if TDS > 1000, `+1` if TDS > 500. -/
def tdsRisk (v : ℚ) : ℕ :=
  if v > 1000 then 3 else if v > 500 then 1 else 0

/-- Turbidity band: `+3` if > 10, `+1` if > 5. -/
def turbidityRisk (v : ℚ) : ℕ :=
  if v > 10 then 3 else if v > 5 then 1 else 0

/-- DO band: `+3` if DO < 3, `+1` if DO < 5. -/
def doRisk (v : ℚ) : ℕ :=
  if v < 3 then 3 else if v < 5 then 1 else 0

/-- Accumulated score of predict_hybrid.py `assess_risk`: the five parameter
contributions plus the visual risk increment. -/
def hybrid_risk_score (d : SensorData) (visual : ℕ) : ℕ :=
  pHRisk d.pH + temperatureRisk d.Temperature + tdsRisk d.TDS
    + turbidityRisk d.Turbidity + doRisk d.DO + visual

/-- predict_hybrid.py `assess_risk`: returns (quality, risk, confidence). -/
def assess_risk (d : SensorData) (visual : ℕ) : String × String × ℕ :=
  let s := hybrid_risk_score d visual
  if 6 ≤ s then ("Unsafe", "High", 95)
  else if 3 ≤ s then ("Unsafe", "Medium", 92)
  else ("Safe", "Low", 97)

/-- Accumulated score of predict_sensor_only.py `assess_risk_from_sensor`:
TDS, Turbidity and DO contribute only when present in the dict. -/
def sensor_only_risk_score (d : SensorDict) : ℕ :=
  pHRisk d.pH + temperatureRisk d.Temperature
    + (match d.TDS with | some v => tdsRisk v | none => 0)
    + (match d.Turbidity with | some v => turbidityRisk v | none => 0)
    + (match d.DO with | some v => doRisk v | none => 0)

/-- predict_sensor_only.py `assess_risk_from_sensor`:
returns (quality, risk, confidence). -/
def assess_risk_from_sensor (d : SensorDict) : String × String × ℕ :=
  let s := sensor_only_risk_score d
  if 6 ≤ s then ("Unsafe", "High", 92)
  else if 3 ≤ s then ("Unsafe", "Medium", 88)
  else ("Safe", "Low", 95)

/-- Accumulated score of predict_image_only.py `assess_risk_from_params`. -/
def image_risk_score (d : SensorData) : ℕ :=
  pHRisk d.pH + temperatureRisk d.Temperature + tdsRisk d.TDS
    + turbidityRisk d.Turbidity + doRisk d.DO

/-- predict_image_only.py `assess_risk_from_params`:
returns (quality, risk, risk_score). -/
def assess_risk_from_params (d : SensorData) : String × String × ℕ :=
  let s := image_risk_score d
  if 6 ≤ s then ("Unsafe", "High", s)
  else if 3 ≤ s then ("Unsafe", "Medium", s)
  else ("Safe", "Low", s)

/-- The spec's score-to-label rule (§3 invariant): score ≥ 6 ⇒ (Unsafe, High);
3 ≤ score < 6 ⇒ (Unsafe, Medium); score < 3 ⇒ (Safe, Low). Stated from the
spec's words, to be compared with each script's mapping. -/
def labelOfScore (s : ℕ) : String × String :=
  if 6 ≤ s then ("Unsafe", "High")
  else if 3 ≤ s then ("Unsafe", "Medium")
  else ("Safe", "Low")

/-- C1: every rule-based path maps its accumulated risk score to labels by
the spec's common rule. -/
theorem c1_label_rule_shared :
    (∀ d v, ((assess_risk d v).1, (assess_risk d v).2.1)
      = labelOfScore (hybrid_risk_score d v))
    ∧ (∀ d, ((assess_risk_from_sensor d).1, (assess_risk_from_sensor d).2.1)
      = labelOfScore (sensor_only_risk_score d))
    ∧ (∀ d, ((assess_risk_from_params d).1, (assess_risk_from_params d).2.1)
      = labelOfScore (image_risk_score d)) := by
  refine ⟨fun d v => ?_, fun d => ?_, fun d => ?_⟩ <;>
    simp only [assess_risk, assess_risk_from_sensor, assess_risk_from_params,
      labelOfScore] <;>
    split_ifs <;> rfl

/-! ### Zero-contribution lemmas for in-range parameters -/

theorem pHRisk_in_range {v : ℚ} (h1 : 6.5 ≤ v) (h2 : v ≤ 8.5) : pHRisk v = 0 := by
  unfold pHRisk
  split_ifs with ha hb
  · rcases ha with h | h <;> norm_num at h1 h2 ⊢ <;> linarith
  · rcases hb with h | h <;> norm_num at h1 h2 ⊢ <;> linarith
  · rfl

theorem temperatureRisk_in_range {v : ℚ} (h1 : 15 ≤ v) (h2 : v ≤ 30) :
    temperatureRisk v = 0 := by
  unfold temperatureRisk
  split_ifs with ha hb
  · rcases ha with h | h <;> linarith
  · rcases hb with h | h <;> linarith
  · rfl

theorem tdsRisk_in_range {v : ℚ} (h : v < 500) : tdsRisk v = 0 := by
  unfold tdsRisk
  split_ifs with ha hb
  · linarith
  · linarith
  · rfl

theorem turbidityRisk_in_range {v : ℚ} (h : v < 5) : turbidityRisk v = 0 := by
  unfold turbidityRisk
  split_ifs with ha hb
  · linarith
  · linarith
  · rfl

theorem doRisk_in_range {v : ℚ} (h : 5 < v) : doRisk v = 0 := by
  unfold doRisk
  split_ifs with ha hb
  · linarith
  · linarith
  · rfl

/-- The sensor dict predict_sensor_only.py passes to `assess_risk_from_sensor`
after filling defaults: all five keys present. -/
def SensorData.toDict (d : SensorData) : SensorDict :=
  ⟨d.pH, d.Temperature, some d.TDS, some d.Turbidity, some d.DO⟩

/-- C3: readings with every parameter in the safe band and no visual increment
score 0 and come out ("Safe", "Low") on both rule-based sensor paths. -/
theorem c3_safe_ranges_score_zero (d : SensorData)
    (hph1 : 6.5 ≤ d.pH) (hph2 : d.pH ≤ 8.5)
    (ht1 : 15 ≤ d.Temperature) (ht2 : d.Temperature ≤ 30)
    (htds : d.TDS < 500) (hturb : d.Turbidity < 5) (hdo : 5 < d.DO) :
    hybrid_risk_score d 0 = 0
    ∧ sensor_only_risk_score d.toDict = 0
    ∧ assess_risk d 0 = ("Safe", "Low", 97)
    ∧ assess_risk_from_sensor d.toDict = ("Safe", "Low", 95) := by
  have h1 := pHRisk_in_range hph1 hph2
  have h2 := temperatureRisk_in_range ht1 ht2
  have h3 := tdsRisk_in_range htds
  have h4 := turbidityRisk_in_range hturb
  have h5 := doRisk_in_range hdo
  have hs : hybrid_risk_score d 0 = 0 := by
    simp [hybrid_risk_score, h1, h2, h3, h4, h5]
  have hs2 : sensor_only_risk_score d.toDict = 0 := by
    simp [sensor_only_risk_score, SensorData.toDict, h1, h2, h3, h4, h5]
  refine ⟨hs, hs2, ?_, ?_⟩
  · simp [assess_risk, hs]
  · simp [assess_risk_from_sensor, hs2]

/-- Witness for C3 at the concrete reading (7, 25, 300, 2, 6). -/
theorem c3_safe_ranges_score_zero_witness :
    hybrid_risk_score ⟨7, 25, 300, 2, 6⟩ 0 = 0
    ∧ sensor_only_risk_score (SensorData.toDict ⟨7, 25, 300, 2, 6⟩) = 0
    ∧ assess_risk ⟨7, 25, 300, 2, 6⟩ 0 = ("Safe", "Low", 97)
    ∧ assess_risk_from_sensor (SensorData.toDict ⟨7, 25, 300, 2, 6⟩)
      = ("Safe", "Low", 95) :=
  c3_safe_ranges_score_zero ⟨7, 25, 300, 2, 6⟩ (by norm_num) (by norm_num)
    (by norm_num) (by norm_num) (by norm_num) (by norm_num) (by norm_num)

/-! ### Per-parameter status strings

The `'Normal' if ... else 'Abnormal'` conditions of the `parameters` map are
character-identical in predict_sensor_only.py, predict_hybrid.py,
predict_image_only.py, predict.py and predict_s3.py; defined once here. -/

/-- Status of pH: Normal iff 6.5 ≤ pH ≤ 8.5. -/
def pHStatus (v : ℚ) : String :=
  if 6.5 ≤ v ∧ v ≤ 8.5 then "Normal" else "Abnormal"

/-- Status of Temperature: Normal iff 15 ≤ T ≤ 30. -/
def temperatureStatus (v : ℚ) : String :=
  if 15 ≤ v ∧ v ≤ 30 then "Normal" else "Abnormal"

/-- Status of TDS: Normal iff TDS < 500. -/
def tdsStatus (v : ℚ) : String :=
  if v < 500 then "Normal" else "Abnormal"

/-- Status of DO: Normal iff DO > 5. -/
def doStatus (v : ℚ) : String :=
  if v > 5 then "Normal" else "Abnormal"

/-- Status of Turbidity: Normal iff Turbidity < 5. -/
def turbidityStatus (v : ℚ) : String :=
  if v < 5 then "Normal" else "Abnormal"


/-! ### Positivity characterizations of the risk contributions -/

theorem pHRisk_pos_iff {v : ℚ} : 0 < pHRisk v ↔ v < 6.5 ∨ 8.5 < v := by
  unfold pHRisk
  split_ifs with h1 h2
  · simp only [Nat.zero_lt_succ, true_iff]
    rcases h1 with h | h
    · left; norm_num at h ⊢; linarith
    · right; norm_num at h ⊢; linarith
  · simp only [Nat.zero_lt_succ, true_iff]
    exact h2
  · push_neg at h1 h2
    simp only [lt_self_iff_false, false_iff]
    push_neg
    exact h2

theorem temperatureRisk_pos_iff {v : ℚ} :
    0 < temperatureRisk v ↔ v < 15 ∨ 30 < v := by
  unfold temperatureRisk
  split_ifs with h1 h2
  · simp only [Nat.zero_lt_succ, true_iff]
    rcases h1 with h | h
    · left; linarith
    · right; linarith
  · simp only [Nat.zero_lt_succ, true_iff]
    exact h2
  · push_neg at h1 h2
    simp only [lt_self_iff_false, false_iff]
    push_neg
    exact h2

theorem tdsRisk_pos_iff {v : ℚ} : 0 < tdsRisk v ↔ 500 < v := by
  unfold tdsRisk
  split_ifs with h1 h2
  · simp only [Nat.zero_lt_succ, true_iff]; linarith
  · simp only [Nat.zero_lt_succ, true_iff]; exact h2
  · push_neg at h1 h2
    simp only [lt_self_iff_false, false_iff, not_lt]
    exact h2

theorem turbidityRisk_pos_iff {v : ℚ} : 0 < turbidityRisk v ↔ 5 < v := by
  unfold turbidityRisk
  split_ifs with h1 h2
  · simp only [Nat.zero_lt_succ, true_iff]; linarith
  · simp only [Nat.zero_lt_succ, true_iff]; exact h2
  · push_neg at h1 h2
    simp only [lt_self_iff_false, false_iff, not_lt]
    exact h2

theorem doRisk_pos_iff {v : ℚ} : 0 < doRisk v ↔ v < 5 := by
  unfold doRisk
  split_ifs with h1 h2
  · simp only [Nat.zero_lt_succ, true_iff]; linarith
  · simp only [Nat.zero_lt_succ, true_iff]; exact h2
  · push_neg at h1 h2
    simp only [lt_self_iff_false, false_iff, not_lt]
    exact h2

/-- C4 counterexample: at TDS = 500 the parameter is reported "Abnormal" in
the result's parameters map, yet its contribution to the risk score is 0
(the score uses the strict `TDS > 500`), so "Abnormal iff positive
contribution" fails; DO = 5 and Turbidity = 5 misbehave the same way. -/
theorem c4_counterexample :
    tdsStatus 500 = "Abnormal" ∧ tdsRisk 500 = 0
    ∧ doStatus 5 = "Abnormal" ∧ doRisk 5 = 0
    ∧ turbidityStatus 5 = "Abnormal" ∧ turbidityRisk 5 = 0 := by
  refine ⟨?_, ?_, ?_, ?_, ?_, ?_⟩ <;>
    norm_num [tdsStatus, tdsRisk, doStatus, doRisk, turbidityStatus,
      turbidityRisk]

/-- C4 amended: a positive risk contribution always implies an "Abnormal"
status, and the equivalence is exact for pH and Temperature; for TDS, DO and
Turbidity the status is "Abnormal" iff the contribution is positive or the
value sits exactly on the threshold boundary (TDS = 500, DO = 5,
Turbidity = 5), where the status says Abnormal but the score adds 0. -/
theorem c4_amended_status_vs_contribution (d : SensorData) :
    (pHStatus d.pH = "Abnormal" ↔ 0 < pHRisk d.pH)
    ∧ (temperatureStatus d.Temperature = "Abnormal"
        ↔ 0 < temperatureRisk d.Temperature)
    ∧ (tdsStatus d.TDS = "Abnormal" ↔ 0 < tdsRisk d.TDS ∨ d.TDS = 500)
    ∧ (doStatus d.DO = "Abnormal" ↔ 0 < doRisk d.DO ∨ d.DO = 5)
    ∧ (turbidityStatus d.Turbidity = "Abnormal"
        ↔ 0 < turbidityRisk d.Turbidity ∨ d.Turbidity = 5) := by
  refine ⟨?_, ?_, ?_, ?_, ?_⟩
  · rw [pHRisk_pos_iff]
    unfold pHStatus
    split_ifs with h
    · simp only [show ("Normal" = "Abnormal") = False by simp, false_iff]
      push_neg
      exact ⟨h.1, h.2⟩
    · push_neg at h
      simp only [true_iff]
      rcases lt_or_le d.pH 6.5 with hlt | hge
      · exact Or.inl hlt
      · exact Or.inr (h hge)
  · rw [temperatureRisk_pos_iff]
    unfold temperatureStatus
    split_ifs with h
    · simp only [show ("Normal" = "Abnormal") = False by simp, false_iff]
      push_neg
      exact ⟨h.1, h.2⟩
    · push_neg at h
      simp only [true_iff]
      rcases lt_or_le d.Temperature 15 with hlt | hge
      · exact Or.inl hlt
      · exact Or.inr (h hge)
  · rw [tdsRisk_pos_iff]
    unfold tdsStatus
    split_ifs with h
    · simp only [show ("Normal" = "Abnormal") = False by simp, false_iff]
      push_neg
      exact ⟨le_of_lt h, ne_of_lt h⟩
    · push_neg at h
      simp only [true_iff]
      rcases lt_or_eq_of_le h with hlt | heq
      · exact Or.inl hlt
      · exact Or.inr heq.symm
  · rw [doRisk_pos_iff]
    unfold doStatus
    split_ifs with h
    · simp only [show ("Normal" = "Abnormal") = False by simp, false_iff]
      push_neg
      exact ⟨le_of_lt h, (ne_of_lt h).symm⟩
    · push_neg at h
      simp only [true_iff]
      rcases lt_or_eq_of_le h with hlt | heq
      · exact Or.inl hlt
      · exact Or.inr heq
  · rw [turbidityRisk_pos_iff]
    unfold turbidityStatus
    split_ifs with h
    · simp only [show ("Normal" = "Abnormal") = False by simp, false_iff]
      push_neg
      exact ⟨le_of_lt h, ne_of_lt h⟩
    · push_neg at h
      simp only [true_iff]
      rcases lt_or_eq_of_le h with hlt | heq
      · exact Or.inl hlt
      · exact Or.inr heq.symm

/-! ### Column-name normalization (predict_sensor_only.py / predict_hybrid.py)

A CSV row is modelled as pandas' `iloc[-1].to_dict()` yields it: ordered
(column name, cell) pairs, a cell being `none` when NaN. Python's
`str.lower` / `str.strip` are modelled characterwise, and `'pat' in s`
as a sublist test. -/

/-- Python `str.lower`, characterwise. -/
def lowerStr (s : String) : String := ⟨s.data.map Char.toLower⟩

/-- Python `str.strip`: drop whitespace from both ends. -/
def stripStr (s : String) : String :=
  ⟨((s.data.dropWhile (·.isWhitespace)).reverse.dropWhile
    (·.isWhitespace)).reverse⟩

/-- Python `pat in s` substring membership. -/
def strContains (s pat : String) : Bool :=
  s.data.tails.any fun t => pat.data.isPrefixOf t

/-- A CSV row: ordered (column, cell) pairs; `none` is a NaN cell. -/
abbrev RawRow := List (String × Option ℚ)

/-- A CSV file: ordered rows. -/
abbrev RawTable := List RawRow

/-- The dict being built by the standardization loop: any parameter may still
be missing. -/
structure PartialSensor where
  pH : Option ℚ := none
  Temperature : Option ℚ := none
  TDS : Option ℚ := none
  Turbidity : Option ℚ := none
  DO : Option ℚ := none
deriving Repr, DecidableEq

/-- One iteration of the column-standardization loop, character-identical in
predict_sensor_only.py `predict_from_sensor` and predict_hybrid.py
`read_sensor_data`: match the lowercased, stripped key against the alias
substrings in source order; a NaN cell falls back to the parameter default. -/
def applyEntry (d : PartialSensor) (kv : String × Option ℚ) : PartialSensor :=
  let kl := stripStr (lowerStr kv.1)
  if strContains kl "ph" then { d with pH := some (kv.2.getD 7) }
  else if strContains kl "temp" then
    { d with Temperature := some (kv.2.getD 25) }
  else if strContains kl "tds" then { d with TDS := some (kv.2.getD 300) }
  else if strContains kl "turbidity" then
    { d with Turbidity := some (kv.2.getD 2) }
  else if strContains kl "do" || strContains kl "oxygen" then
    { d with DO := some (kv.2.getD 6) }
  else d

/-- The `if 'pH' not in data: data['pH'] = 7.0` default-fill block of
predict_sensor_only.py / predict_hybrid.py. -/
def fill_defaults (d : PartialSensor) : SensorData :=
  ⟨d.pH.getD 7, d.Temperature.getD 25, d.TDS.getD 300, d.Turbidity.getD 2,
    d.DO.getD 6⟩

/-- Standardize one row and fill defaults: the canonical reading both
rule-based sensor paths compute from `df.iloc[-1]`. -/
def read_sensor_row (row : RawRow) : SensorData :=
  fill_defaults (row.foldl applyEntry {})

/-! ### Result envelopes -/

/-- One entry of the result's `parameters` map. -/
structure ParamEntry where
  value : ℚ
  status : String
deriving Repr, DecidableEq

/-- All five parameters present, as a partial dict (for paths whose
`sensor_readings` dict may miss keys). -/
def SensorData.toPartial (d : SensorData) : PartialSensor :=
  ⟨some d.pH, some d.Temperature, some d.TDS, some d.Turbidity, some d.DO⟩

/-- Python `round(x, 2)`: round x·100 to the nearest integer. (Float
round-half-to-even ties are irrelevant to every value proved about here.) -/
def round2 (x : ℚ) : ℚ := (round (100 * x) : ℤ) / 100

/-- The uniform result envelope. `method` is an `Option` because predict.py's
result dict carries no `method` key at all. The s3 path's `id`, `timestamp`
and `s3_key` fields come from the wall clock and are not modelled. -/
structure PredictionResult where
  water_quality : String
  risk_level : String
  confidence_quality : ℚ
  confidence_risk : ℚ
  sensor_readings : PartialSensor
  param_pH : ParamEntry
  param_Temperature : ParamEntry
  param_TDS : ParamEntry
  param_DO : ParamEntry
  param_Turbidity : ParamEntry
  method : Option String
deriving Repr, DecidableEq

/-- predict_sensor_only.py result dict (lines 119-150). -/
def sensor_only_result (data : SensorData) : PredictionResult :=
  let a := assess_risk_from_sensor data.toDict
  { water_quality := a.1
    risk_level := a.2.1
    confidence_quality := (a.2.2 : ℚ)
    confidence_risk := (a.2.2 : ℚ) - 3
    sensor_readings := data.toPartial
    param_pH := ⟨round2 data.pH, pHStatus data.pH⟩
    param_Temperature :=
      ⟨round2 data.Temperature, temperatureStatus data.Temperature⟩
    param_TDS := ⟨round2 data.TDS, tdsStatus data.TDS⟩
    param_DO := ⟨round2 data.DO, doStatus data.DO⟩
    param_Turbidity := ⟨round2 data.Turbidity, turbidityStatus data.Turbidity⟩
    method := some "sensor_only" }

/-- predict_sensor_only.py `predict_from_sensor`: last row of the CSV,
standardized, defaults filled, assessed. -/
def predict_from_sensor (t : RawTable) : Except String PredictionResult :=
  match t.getLast? with
  | none => .error "No data in CSV file"
  | some latest => .ok (sensor_only_result (read_sensor_row latest))

/-- predict_hybrid.py `read_sensor_data`: standardized last row, or `none`
when the CSV has no rows. -/
def read_sensor_data (t : RawTable) : Option SensorData :=
  match t.getLast? with
  | none => none
  | some latest => some (read_sensor_row latest)

/-- predict_hybrid.py `analyze_image` visual-risk bands, as a function of
the image's green-pixel ratio and Laplacian variance. -/
def analyze_image (green_ratio laplacian_var : ℚ) : ℕ :=
  (if green_ratio > 0.3 then 2 else if green_ratio > 0.15 then 1 else 0)
  + (if laplacian_var < 50 then 2 else if laplacian_var < 100 then 1 else 0)

/-- predict_hybrid.py result dict (lines 155-186): note the method tag is
the string "hybrid_sensor_image". -/
def hybrid_result (data : SensorData) (visual : ℕ) : PredictionResult :=
  let a := assess_risk data visual
  { water_quality := a.1
    risk_level := a.2.1
    confidence_quality := (a.2.2 : ℚ)
    confidence_risk := (a.2.2 : ℚ) - 2
    sensor_readings := data.toPartial
    param_pH := ⟨round2 data.pH, pHStatus data.pH⟩
    param_Temperature :=
      ⟨round2 data.Temperature, temperatureStatus data.Temperature⟩
    param_TDS := ⟨round2 data.TDS, tdsStatus data.TDS⟩
    param_DO := ⟨round2 data.DO, doStatus data.DO⟩
    param_Turbidity := ⟨round2 data.Turbidity, turbidityStatus data.Turbidity⟩
    method := some "hybrid_sensor_image" }

/-- predict_hybrid.py `predict`: sensor data is required; the image enters
only through its visual risk increment. -/
def predict_hybrid (green_ratio laplacian_var : ℚ) (t : RawTable) :
    Except String PredictionResult :=
  match read_sensor_data t with
  | none => .error "Failed to read sensor data from CSV"
  | some d => .ok (hybrid_result d (analyze_image green_ratio laplacian_var))

/-- Python's two-argument `max`: the second argument wins only when strictly
greater. -/
def pymax (a b : ℚ) : ℚ := if a < b then b else a

/-- Python's two-argument `min`: the second argument wins only when strictly
smaller. -/
def pymin (a b : ℚ) : ℚ := if b < a then b else a

/-- predict_image_only.py `analyze_image_features`: estimate the canonical
parameters from the image's green ratio, Laplacian variance and
brightness. -/
def analyze_image_features (green_ratio laplacian_var brightness : ℚ) :
    SensorData :=
  let turbidity_estimate := pymax 0 (pymin 10 ((100 - laplacian_var) / 10))
  { pH := 7 + green_ratio * 2
    Temperature := 20 + brightness / 10
    TDS := 300 + turbidity_estimate * 30
    Turbidity := turbidity_estimate
    DO := pymax 3 (8 - green_ratio * 5) }

/-- predict_image_only.py `predict_from_image` on a decodable image. -/
def predict_from_image (green_ratio laplacian_var brightness : ℚ) :
    PredictionResult :=
  let params := analyze_image_features green_ratio laplacian_var brightness
  let a := assess_risk_from_params params
  let confidence : ℕ := min 95 (70 + a.2.2 * 3)
  { water_quality := a.1
    risk_level := a.2.1
    confidence_quality := (confidence : ℚ)
    confidence_risk := (confidence : ℚ) - 5
    sensor_readings := params.toPartial
    param_pH := ⟨round2 params.pH, pHStatus params.pH⟩
    param_Temperature :=
      ⟨round2 params.Temperature, temperatureStatus params.Temperature⟩
    param_TDS := ⟨round2 params.TDS, tdsStatus params.TDS⟩
    param_DO := ⟨round2 params.DO, doStatus params.DO⟩
    param_Turbidity :=
      ⟨round2 params.Turbidity, turbidityStatus params.Turbidity⟩
    method := some "image_only" }

/-- predict.py result dict (lines 181-211), built from the model's labels,
the two max class probabilities, and the latest reading: parameter values are
NOT rounded here, and the dict has no `method` key. -/
def make_prediction_result (quality_label risk_label : String) (qc rc : ℚ)
    (sr : SensorData) : PredictionResult :=
  { water_quality := quality_label
    risk_level := risk_label
    confidence_quality := round2 (qc * 100)
    confidence_risk := round2 (rc * 100)
    sensor_readings := sr.toPartial
    param_pH := ⟨sr.pH, pHStatus sr.pH⟩
    param_Temperature := ⟨sr.Temperature, temperatureStatus sr.Temperature⟩
    param_TDS := ⟨sr.TDS, tdsStatus sr.TDS⟩
    param_DO := ⟨sr.DO, doStatus sr.DO⟩
    param_Turbidity := ⟨sr.Turbidity, turbidityStatus sr.Turbidity⟩
    method := none }

/-- predict_s3.py result dict (lines 200-218): the readings dict may miss
keys, so values default to 0 and the pH/Temperature status checks to the
in-range defaults 7 and 25; the method tag is "hybrid_s3_model". -/
def make_prediction_result_s3 (quality_class risk_class : String) (qc rc : ℚ)
    (data : PartialSensor) : PredictionResult :=
  { water_quality := quality_class
    risk_level := risk_class
    confidence_quality := qc * 100
    confidence_risk := rc * 100
    sensor_readings := data
    param_pH := ⟨round2 (data.pH.getD 0), pHStatus (data.pH.getD 7)⟩
    param_Temperature :=
      ⟨round2 (data.Temperature.getD 0),
        temperatureStatus (data.Temperature.getD 25)⟩
    param_TDS := ⟨round2 (data.TDS.getD 0), tdsStatus (data.TDS.getD 0)⟩
    param_DO := ⟨round2 (data.DO.getD 0), doStatus (data.DO.getD 0)⟩
    param_Turbidity :=
      ⟨round2 (data.Turbidity.getD 0), turbidityStatus (data.Turbidity.getD 0)⟩
    method := some "hybrid_s3_model" }

/-- C2 counterexample: a successful hybrid prediction carries the method tag
"hybrid_sensor_image", which is not in the claimed set {"sensor_only",
"image_only", "hybrid", "fusion_model"}; moreover predict.py's fusion-model
envelope carries no method field at all. -/
theorem c2_counterexample :
    (predict_hybrid 0 200 [[("pH", some 7)]]).toOption.map (·.method)
      = some (some "hybrid_sensor_image")
    ∧ "hybrid_sensor_image"
        ∉ (["sensor_only", "image_only", "hybrid", "fusion_model"] :
            List String)
    ∧ (make_prediction_result "Safe" "Low" (9/10) (8/10)
        ⟨7, 25, 300, 2, 6⟩).method = none := by
  refine ⟨by decide, by decide, rfl⟩

/-- C2 amended: the method tags actually emitted are "sensor_only"
(predict_sensor_only.py), "image_only" (predict_image_only.py),
"hybrid_sensor_image" (predict_hybrid.py) and "hybrid_s3_model"
(predict_s3.py); predict.py's envelope has no method field. -/
theorem c2_amended_methods :
    (∀ t r, predict_from_sensor t = .ok r → r.method = some "sensor_only")
    ∧ (∀ g l b, (predict_from_image g l b).method = some "image_only")
    ∧ (∀ g l t r, predict_hybrid g l t = .ok r
        → r.method = some "hybrid_sensor_image")
    ∧ (∀ ql rl qc rc sr, (make_prediction_result ql rl qc rc sr).method = none)
    ∧ (∀ ql rl qc rc d, (make_prediction_result_s3 ql rl qc rc d).method
        = some "hybrid_s3_model") := by
  refine ⟨?_, fun g l b => rfl, ?_, fun ql rl qc rc sr => rfl,
    fun ql rl qc rc d => rfl⟩
  · intro t r h
    unfold predict_from_sensor at h
    cases ht : t.getLast? with
    | none => rw [ht] at h; exact absurd h (by simp)
    | some latest =>
        rw [ht] at h
        cases h
        rfl
  · intro g l t r h
    unfold predict_hybrid read_sensor_data at h
    cases ht : t.getLast? with
    | none => rw [ht] at h; exact absurd h (by simp)
    | some latest =>
        rw [ht] at h
        cases h
        rfl

/-- Witness for C2 amended: the two hypothesis-bearing parts applied to a
concrete one-row table. -/
theorem c2_amended_methods_witness :
    (sensor_only_result (read_sensor_row [("pH", some 7)])).method
      = some "sensor_only"
    ∧ (hybrid_result (read_sensor_row [("pH", some 7)])
        (analyze_image 0 200)).method = some "hybrid_sensor_image" :=
  ⟨c2_amended_methods.1 [[("pH", some 7)]] _ rfl,
    c2_amended_methods.2.2.1 0 200 [[("pH", some 7)]] _ rfl⟩

/-- C9 counterexample: green ratio 2/5 exceeds 0.3 and Laplacian variance 0
is the lowest possible clarity, yet the estimated DO is 6 (not below 5) and
the image-only prediction is ("Safe", "Low"), not "Unsafe": DO drops below 5
only once the green ratio exceeds 3/5. -/
theorem c9_counterexample :
    (3/10 : ℚ) < 2/5
    ∧ (analyze_image_features (2/5) 0 50).DO = 6
    ∧ (predict_from_image (2/5) 0 50).water_quality = "Safe"
    ∧ (predict_from_image (2/5) 0 50).risk_level = "Low" := by
  refine ⟨by norm_num, ?_, ?_, ?_⟩ <;>
  · simp only [predict_from_image, analyze_image_features,
      assess_risk_from_params, image_risk_score, pymax, pymin, pHRisk,
      temperatureRisk, tdsRisk, turbidityRisk, doRisk]
    norm_num

/-! ### Order lemmas for the Python max/min -/

theorem pymax_lt {a b c : ℚ} (h1 : a < c) (h2 : b < c) : pymax a b < c := by
  unfold pymax; split_ifs <;> assumption

theorem lt_pymin {a b c : ℚ} (h1 : c < a) (h2 : c < b) : c < pymin a b := by
  unfold pymin; split_ifs <;> assumption

theorem le_pymax_right (a b : ℚ) : b ≤ pymax a b := by
  unfold pymax; split_ifs with h
  · exact le_refl b
  · exact le_of_not_lt h

/-- Any score of at least 3 yields quality "Unsafe" on the image-only
mapping. -/
theorem assess_params_unsafe {d : SensorData} (h : 3 ≤ image_risk_score d) :
    (assess_risk_from_params d).1 = "Unsafe" := by
  unfold assess_risk_from_params
  simp only []
  split_ifs with h1
  · rfl
  · rfl

/-- C9 amended: the estimated DO falls below 5 only when the green ratio
exceeds 3/5 (not 0.3); when additionally the Laplacian variance is below
100/3 — low enough clarity that the TDS and Turbidity estimates both breach
their bands — the image-only path estimates DO < 5, an elevated Turbidity
(> 5), and returns "Unsafe" with method "image_only". -/
theorem c9_amended_heavy_algae_unsafe (g lap b : ℚ)
    (hg : 3/5 < g) (hlap : lap < 100/3) :
    (analyze_image_features g lap b).DO < 5
    ∧ 5 < (analyze_image_features g lap b).Turbidity
    ∧ (predict_from_image g lap b).water_quality = "Unsafe"
    ∧ (predict_from_image g lap b).method = some "image_only" := by
  have hDOeq : (analyze_image_features g lap b).DO
      = pymax 3 (8 - g * 5) := rfl
  have hTurbEq : (analyze_image_features g lap b).Turbidity
      = pymax 0 (pymin 10 ((100 - lap) / 10)) := rfl
  have hTDSEq : (analyze_image_features g lap b).TDS
      = 300 + pymax 0 (pymin 10 ((100 - lap) / 10)) * 30 := rfl
  have hx : (20/3 : ℚ) < (100 - lap) / 10 := by linarith
  have hmin : (20/3 : ℚ) < pymin 10 ((100 - lap) / 10) :=
    lt_pymin (by norm_num) hx
  have ht : (20/3 : ℚ) < pymax 0 (pymin 10 ((100 - lap) / 10)) :=
    lt_of_lt_of_le hmin (le_pymax_right _ _)
  have hDO : (analyze_image_features g lap b).DO < 5 := by
    rw [hDOeq]
    exact pymax_lt (by norm_num) (by linarith)
  have hTurb : 5 < (analyze_image_features g lap b).Turbidity := by
    rw [hTurbEq]; linarith
  have hTDS : 500 < (analyze_image_features g lap b).TDS := by
    rw [hTDSEq]; linarith
  have p1 : 0 < tdsRisk (analyze_image_features g lap b).TDS :=
    tdsRisk_pos_iff.mpr hTDS
  have p2 : 0 < turbidityRisk (analyze_image_features g lap b).Turbidity :=
    turbidityRisk_pos_iff.mpr hTurb
  have p3 : 0 < doRisk (analyze_image_features g lap b).DO :=
    doRisk_pos_iff.mpr hDO
  have hscore : 3 ≤ image_risk_score (analyze_image_features g lap b) := by
    unfold image_risk_score
    omega
  have hq : (predict_from_image g lap b).water_quality
      = (assess_risk_from_params (analyze_image_features g lap b)).1 := rfl
  exact ⟨hDO, hTurb, by rw [hq]; exact assess_params_unsafe hscore, rfl⟩

/-- Witness for C9 amended at green ratio 7/10, Laplacian variance 0,
brightness 50. -/
theorem c9_amended_heavy_algae_unsafe_witness :
    (analyze_image_features (7/10) 0 50).DO < 5
    ∧ 5 < (analyze_image_features (7/10) 0 50).Turbidity
    ∧ (predict_from_image (7/10) 0 50).water_quality = "Unsafe"
    ∧ (predict_from_image (7/10) 0 50).method = some "image_only" :=
  c9_amended_heavy_algae_unsafe (7/10) 0 50 (by norm_num) (by norm_num)

/-- C10: the sensor_only and hybrid predictions are functions of the CSV's
last row alone (and, for hybrid, of the image): two tables with the same
last row give identical results. -/
theorem c10_depends_on_last_row_only (t1 t2 : RawTable) (row : RawRow)
    (g lap : ℚ) (h1 : t1.getLast? = some row) (h2 : t2.getLast? = some row) :
    predict_from_sensor t1 = predict_from_sensor t2
    ∧ predict_hybrid g lap t1 = predict_hybrid g lap t2 := by
  unfold predict_from_sensor predict_hybrid read_sensor_data
  rw [h1, h2]
  exact ⟨rfl, rfl⟩

/-- Witness for C10: two concrete tables that differ in every earlier row but
share the last row. -/
theorem c10_depends_on_last_row_only_witness :
    predict_from_sensor [[("pH", some 9)], [("pH", some 7)]]
      = predict_from_sensor
          [[("Temperature", some 50), ("pH", some 9)], [("pH", some 7)]]
    ∧ predict_hybrid 0 200 [[("pH", some 9)], [("pH", some 7)]]
      = predict_hybrid 0 200
          [[("Temperature", some 50), ("pH", some 9)], [("pH", some 7)]] :=
  c10_depends_on_last_row_only _ _ [("pH", some 7)] 0 200 rfl rfl

/-! ### predict.py `preprocess_sensor_data` -/

/-- A tabular frame as pandas holds it: a header and rows of cells. -/
structure DataFrame where
  cols : List String
  rows : List (List ℚ)
deriving Repr, DecidableEq

/-- predict.py's exact-name `column_mapping` rename table (lines 94-104);
the identity entry 'DO' → 'DO' is a no-op. -/
def renameCol (c : String) : String :=
  if c = "ph" then "pH"
  else if c = "PH" then "pH"
  else if c = "temperature" then "Temperature"
  else if c = "temp" then "Temperature"
  else if c = "Temp" then "Temperature"
  else if c = "tds" then "TDS"
  else if c = "turbidity" then "Turbidity"
  else if c = "do" then "DO"
  else if c = "dissolved_oxygen" then "DO"
  else c

/-- The recorded feature order of feature_columns.json, as written by
preprocess_sensor_data.py `extract_features` (`possible_features =
['pH', 'Temperature', 'TDS', 'DO', 'Turbidity']`) when all five canonical
columns are present in the training data. -/
def recordedFeatures : List String :=
  ["pH", "Temperature", "TDS", "DO", "Turbidity"]

/-- `available_features = [col for col in feature_columns['features'] if col
in df.columns]` (after renaming). -/
def availableFeatures (df : DataFrame) (featureCols : List String) :
    List String :=
  featureCols.filter fun c => (df.cols.map renameCol).contains c

/-- `df[available].values` row projection: pandas selects the named columns
in `available` order. -/
def selectRow (cols avail : List String) (r : List ℚ) : List ℚ :=
  avail.map fun c => (r[cols.indexOf c]?).getD 0

/-- predict.py lines 107-122: select the recorded features present in the
frame (first SEQUENCE_LENGTH = 10 rows), falling back to the single default
row [7.0, 25.0, 300.0, 5.0, 2.0] when no recorded feature matches; pad short
data by repeating the last row — an all-zero row when there are no rows at
all — and truncate to 10. (The external `scaler.transform` rescales the
values downstream but does not change the matrix shape or the unscaled
latest reading.) -/
def build_sequence (df : DataFrame) (featureCols : List String) :
    List (List ℚ) :=
  let cols := df.cols.map renameCol
  let avail := availableFeatures df featureCols
  let sensor_data :=
    if avail.isEmpty then [[7, 25, 300, 5, 2]]
    else (df.rows.take 10).map (selectRow cols avail)
  if sensor_data.length < 10 then
    let last_row :=
      match sensor_data.getLast? with
      | some r => r
      | none => List.replicate avail.length 0
    sensor_data ++ List.replicate (10 - sensor_data.length) last_row
  else
    sensor_data.take 10

/-- One entry of predict.py's latest-readings dict (lines 129-135): the
guard compares against the number of ROWS (always 10 after padding), and the
positional index into the last row raises IndexError (`none`) past the row's
width. -/
def fieldAt (m : List (List ℚ)) (rowsGT idx : ℕ) (dflt : ℚ) : Option ℚ :=
  if rowsGT < m.length then m.getLast?.bind fun r => r[idx]?
  else some dflt

/-- predict.py lines 129-135: `latest_reading` reads positions 0..4 of the
last padded row as pH, Temperature, TDS, DO, Turbidity. -/
def latest_reading (m : List (List ℚ)) : Option SensorData := do
  let ph ← fieldAt m 0 0 7
  let t ← fieldAt m 1 1 25
  let tds ← fieldAt m 2 2 300
  let dov ← fieldAt m 3 3 5
  let turb ← fieldAt m 4 4 2
  some ⟨ph, t, tds, turb, dov⟩

/-- predict.py `preprocess_sensor_data`: the padded (unscaled) sequence and
the latest reading; `none` models the IndexError → error-exit path. -/
def preprocess_sensor_data (df : DataFrame) (featureCols : List String) :
    Option (List (List ℚ) × SensorData) :=
  let m := build_sequence df featureCols
  (latest_reading m).map fun lr => (m, lr)

/-! ### Field preservation through the standardization loop -/

theorem applyEntry_pH_eq (d : PartialSensor) (kv : String × Option ℚ)
    (h : strContains (stripStr (lowerStr kv.1)) "ph" = false) :
    (applyEntry d kv).pH = d.pH := by
  simp only [applyEntry, h, Bool.false_eq_true, if_false]
  split_ifs <;> rfl

theorem applyEntry_temperature_eq (d : PartialSensor) (kv : String × Option ℚ)
    (h : strContains (stripStr (lowerStr kv.1)) "temp" = false) :
    (applyEntry d kv).Temperature = d.Temperature := by
  simp only [applyEntry, h, Bool.false_eq_true, if_false]
  split_ifs <;> rfl

theorem applyEntry_tds_eq (d : PartialSensor) (kv : String × Option ℚ)
    (h : strContains (stripStr (lowerStr kv.1)) "tds" = false) :
    (applyEntry d kv).TDS = d.TDS := by
  simp only [applyEntry, h, Bool.false_eq_true, if_false]
  split_ifs <;> rfl

theorem applyEntry_turbidity_eq (d : PartialSensor) (kv : String × Option ℚ)
    (h : strContains (stripStr (lowerStr kv.1)) "turbidity" = false) :
    (applyEntry d kv).Turbidity = d.Turbidity := by
  simp only [applyEntry, h, Bool.false_eq_true, if_false]
  split_ifs <;> rfl

theorem applyEntry_do_eq (d : PartialSensor) (kv : String × Option ℚ)
    (h1 : strContains (stripStr (lowerStr kv.1)) "do" = false)
    (h2 : strContains (stripStr (lowerStr kv.1)) "oxygen" = false) :
    (applyEntry d kv).DO = d.DO := by
  simp only [applyEntry, h1, h2, Bool.or_self, Bool.false_eq_true, if_false]
  split_ifs <;> rfl

theorem foldl_pH_eq (row : RawRow) (d : PartialSensor)
    (h : ∀ kv ∈ row, strContains (stripStr (lowerStr kv.1)) "ph" = false) :
    (row.foldl applyEntry d).pH = d.pH := by
  induction row generalizing d with
  | nil => rfl
  | cons kv row ih =>
      rw [List.foldl_cons,
        ih _ fun x hx => h x (List.mem_cons_of_mem _ hx),
        applyEntry_pH_eq d kv (h kv (List.mem_cons_self kv row))]

theorem foldl_temperature_eq (row : RawRow) (d : PartialSensor)
    (h : ∀ kv ∈ row, strContains (stripStr (lowerStr kv.1)) "temp" = false) :
    (row.foldl applyEntry d).Temperature = d.Temperature := by
  induction row generalizing d with
  | nil => rfl
  | cons kv row ih =>
      rw [List.foldl_cons,
        ih _ fun x hx => h x (List.mem_cons_of_mem _ hx),
        applyEntry_temperature_eq d kv (h kv (List.mem_cons_self kv row))]

theorem foldl_tds_eq (row : RawRow) (d : PartialSensor)
    (h : ∀ kv ∈ row, strContains (stripStr (lowerStr kv.1)) "tds" = false) :
    (row.foldl applyEntry d).TDS = d.TDS := by
  induction row generalizing d with
  | nil => rfl
  | cons kv row ih =>
      rw [List.foldl_cons,
        ih _ fun x hx => h x (List.mem_cons_of_mem _ hx),
        applyEntry_tds_eq d kv (h kv (List.mem_cons_self kv row))]

theorem foldl_turbidity_eq (row : RawRow) (d : PartialSensor)
    (h : ∀ kv ∈ row,
      strContains (stripStr (lowerStr kv.1)) "turbidity" = false) :
    (row.foldl applyEntry d).Turbidity = d.Turbidity := by
  induction row generalizing d with
  | nil => rfl
  | cons kv row ih =>
      rw [List.foldl_cons,
        ih _ fun x hx => h x (List.mem_cons_of_mem _ hx),
        applyEntry_turbidity_eq d kv (h kv (List.mem_cons_self kv row))]

theorem foldl_do_eq (row : RawRow) (d : PartialSensor)
    (h : ∀ kv ∈ row, strContains (stripStr (lowerStr kv.1)) "do" = false
      ∧ strContains (stripStr (lowerStr kv.1)) "oxygen" = false) :
    (row.foldl applyEntry d).DO = d.DO := by
  induction row generalizing d with
  | nil => rfl
  | cons kv row ih =>
      rw [List.foldl_cons,
        ih _ fun x hx => h x (List.mem_cons_of_mem _ hx),
        applyEntry_do_eq d kv (h kv (List.mem_cons_self kv row)).1
          (h kv (List.mem_cons_self kv row)).2]

/-- C5 counterexample: in predict.py, a row whose source lacks only the DO
column makes preprocessing fail (uncaught IndexError while building the
latest-readings dict) — normalization DOES fail merely because a parameter
column is absent; and when no recorded column matches at all, the fallback
row fills DO with 5.0, not the documented 6.0. -/
theorem c5_counterexample :
    preprocess_sensor_data
      ⟨["pH", "Temperature", "TDS", "Turbidity"], [[7, 25, 300, 2]]⟩
      recordedFeatures = none
    ∧ (preprocess_sensor_data ⟨["station"], [[1]]⟩ recordedFeatures).map
        (fun p => p.2.DO) = some 5
    ∧ (5 : ℚ) ≠ 6 :=
  ⟨by decide, by decide, by norm_num⟩

/-- C5 amended: in the predict_sensor_only.py / predict_hybrid.py
normalization, a canonical parameter with no matching source column is filled
with its documented default (pH 7.0, Temperature 25.0, TDS 300.0,
Turbidity 2.0, DO 6.0) and normalization never fails. In predict.py, by
contrast, an absent parameter column is silently dropped (preprocessing can
then fail with an IndexError), and when no recorded column matches, the
fallback default row carries DO 5.0 rather than 6.0. -/
theorem c5_amended_defaults :
    (∀ row : RawRow,
      (∀ kv ∈ row, strContains (stripStr (lowerStr kv.1)) "ph" = false)
      → (read_sensor_row row).pH = 7)
    ∧ (∀ row : RawRow,
      (∀ kv ∈ row, strContains (stripStr (lowerStr kv.1)) "temp" = false)
      → (read_sensor_row row).Temperature = 25)
    ∧ (∀ row : RawRow,
      (∀ kv ∈ row, strContains (stripStr (lowerStr kv.1)) "tds" = false)
      → (read_sensor_row row).TDS = 300)
    ∧ (∀ row : RawRow,
      (∀ kv ∈ row, strContains (stripStr (lowerStr kv.1)) "turbidity" = false)
      → (read_sensor_row row).Turbidity = 2)
    ∧ (∀ row : RawRow,
      (∀ kv ∈ row, strContains (stripStr (lowerStr kv.1)) "do" = false
        ∧ strContains (stripStr (lowerStr kv.1)) "oxygen" = false)
      → (read_sensor_row row).DO = 6)
    ∧ (preprocess_sensor_data ⟨["station"], [[1]]⟩ recordedFeatures).map
        (fun p => p.2) = some ⟨7, 25, 300, 2, 5⟩ := by
  refine ⟨?_, ?_, ?_, ?_, ?_, by decide⟩
  · intro row h
    show ((row.foldl applyEntry {}).pH).getD 7 = 7
    rw [foldl_pH_eq row {} h]
    rfl
  · intro row h
    show ((row.foldl applyEntry {}).Temperature).getD 25 = 25
    rw [foldl_temperature_eq row {} h]
    rfl
  · intro row h
    show ((row.foldl applyEntry {}).TDS).getD 300 = 300
    rw [foldl_tds_eq row {} h]
    rfl
  · intro row h
    show ((row.foldl applyEntry {}).Turbidity).getD 2 = 2
    rw [foldl_turbidity_eq row {} h]
    rfl
  · intro row h
    show ((row.foldl applyEntry {}).DO).getD 6 = 6
    rw [foldl_do_eq row {} h]
    rfl

/-- Witness for C5 amended at the one-column row [("id", 1)], which aliases
no canonical parameter: every field comes out at its documented default. -/
theorem c5_amended_defaults_witness :
    (read_sensor_row [("id", some 1)]).pH = 7
    ∧ (read_sensor_row [("id", some 1)]).Temperature = 25
    ∧ (read_sensor_row [("id", some 1)]).TDS = 300
    ∧ (read_sensor_row [("id", some 1)]).Turbidity = 2
    ∧ (read_sensor_row [("id", some 1)]).DO = 6 :=
  ⟨c5_amended_defaults.1 _ (by decide),
    c5_amended_defaults.2.1 _ (by decide),
    c5_amended_defaults.2.2.1 _ (by decide),
    c5_amended_defaults.2.2.2.1 _ (by decide),
    c5_amended_defaults.2.2.2.2.1 _ (by decide)⟩

/-- C6 counterexample: from a 0-row source whose header already carries the
recorded columns, the built length-10 sequence is 10 copies of the all-ZERO
row — not 10 copies of the all-defaults reading (neither predict.py's own
default row [7, 25, 300, 5, 2] nor the documented-defaults reading
[7, 25, 300, 6, 2] in recorded order). -/
theorem c6_counterexample :
    build_sequence ⟨recordedFeatures, []⟩ recordedFeatures
      = List.replicate 10 [0, 0, 0, 0, 0]
    ∧ List.replicate 10 [(0 : ℚ), 0, 0, 0, 0]
      ≠ List.replicate 10 [7, 25, 300, 5, 2]
    ∧ List.replicate 10 [(0 : ℚ), 0, 0, 0, 0]
      ≠ List.replicate 10 [7, 25, 300, 6, 2] :=
  ⟨by decide, by decide, by decide⟩

/-- C6 amended: (a) a 3-row source with at least one matching column is
padded with 7 repetitions of the selected 3rd (last) row; (b) a 0-row source
with matching columns yields 10 copies of the all-zero row, and a source
with no matching column yields 10 copies of predict.py's default row
[7, 25, 300, 5, 2] (DO 5.0); (c) for sources beyond 10 rows the window is
the FIRST 10 rows, not the most recent 10. -/
theorem c6_amended_sequence :
    (∀ (cols : List String) (fc : List String) (r1 r2 r3 : List ℚ),
      availableFeatures ⟨cols, [r1, r2, r3]⟩ fc ≠ []
      → build_sequence ⟨cols, [r1, r2, r3]⟩ fc
        = [selectRow (cols.map renameCol)
              (availableFeatures ⟨cols, [r1, r2, r3]⟩ fc) r1,
            selectRow (cols.map renameCol)
              (availableFeatures ⟨cols, [r1, r2, r3]⟩ fc) r2,
            selectRow (cols.map renameCol)
              (availableFeatures ⟨cols, [r1, r2, r3]⟩ fc) r3]
          ++ List.replicate 7 (selectRow (cols.map renameCol)
              (availableFeatures ⟨cols, [r1, r2, r3]⟩ fc) r3))
    ∧ build_sequence ⟨recordedFeatures, []⟩ recordedFeatures
        = List.replicate 10 [0, 0, 0, 0, 0]
    ∧ build_sequence ⟨["station"], [[1], [2]]⟩ recordedFeatures
        = List.replicate 10 [7, 25, 300, 5, 2]
    ∧ (∀ (df : DataFrame) (fc : List String),
      10 ≤ df.rows.length → availableFeatures df fc ≠ []
      → build_sequence df fc
        = (df.rows.take 10).map
            (selectRow (df.cols.map renameCol) (availableFeatures df fc))) := by
  refine ⟨?_, by decide, by decide, ?_⟩
  · intro cols fc r1 r2 r3 h
    cases h' : availableFeatures ⟨cols, [r1, r2, r3]⟩ fc with
    | nil => exact absurd h' h
    | cons a l =>
        simp only [build_sequence, h']
        rfl
  · intro df fc hlen h
    cases h' : availableFeatures df fc with
    | nil => exact absurd h' h
    | cons a l =>
        have hm : ((df.rows.take 10).map
            (selectRow (df.cols.map renameCol) (a :: l))).length = 10 := by
          rw [List.length_map, List.length_take]
          omega
        simp only [build_sequence, h', List.isEmpty_cons, Bool.false_eq_true,
          if_false]
        rw [if_neg (by omega), List.take_of_length_le (le_of_eq hm)]

/-- Witness for C6 amended: the 3-row and the 11-row parts applied to
concrete frames. -/
theorem c6_amended_sequence_witness :
    build_sequence ⟨recordedFeatures, [[7, 25, 300, 6, 2], [7, 24, 310, 6, 2],
        [8, 20, 400, 5, 3]]⟩ recordedFeatures
      = [selectRow (recordedFeatures.map renameCol)
            (availableFeatures ⟨recordedFeatures, [[7, 25, 300, 6, 2],
              [7, 24, 310, 6, 2], [8, 20, 400, 5, 3]]⟩ recordedFeatures)
            [7, 25, 300, 6, 2],
          selectRow (recordedFeatures.map renameCol)
            (availableFeatures ⟨recordedFeatures, [[7, 25, 300, 6, 2],
              [7, 24, 310, 6, 2], [8, 20, 400, 5, 3]]⟩ recordedFeatures)
            [7, 24, 310, 6, 2],
          selectRow (recordedFeatures.map renameCol)
            (availableFeatures ⟨recordedFeatures, [[7, 25, 300, 6, 2],
              [7, 24, 310, 6, 2], [8, 20, 400, 5, 3]]⟩ recordedFeatures)
            [8, 20, 400, 5, 3]]
        ++ List.replicate 7 (selectRow (recordedFeatures.map renameCol)
            (availableFeatures ⟨recordedFeatures, [[7, 25, 300, 6, 2],
              [7, 24, 310, 6, 2], [8, 20, 400, 5, 3]]⟩ recordedFeatures)
            [8, 20, 400, 5, 3])
    ∧ build_sequence ⟨["pH"], [[1], [2], [3], [4], [5], [6], [7], [8], [9],
        [10], [11]]⟩ recordedFeatures
      = ([[(1 : ℚ)], [2], [3], [4], [5], [6], [7], [8], [9], [10],
          [11]].take 10).map
          (selectRow (["pH"].map renameCol)
            (availableFeatures ⟨["pH"], [[1], [2], [3], [4], [5], [6], [7],
              [8], [9], [10], [11]]⟩ recordedFeatures)) :=
  ⟨c6_amended_sequence.1 recordedFeatures recordedFeatures _ _ _ (by decide),
    c6_amended_sequence.2.2.2 _ recordedFeatures (by decide) (by decide)⟩

/-! ### Shape lemmas for the predict.py sequence builder -/

theorem selectRow_length (cs av : List String) (r : List ℚ) :
    (selectRow cs av r).length = av.length := by
  simp [selectRow]

theorem build_sequence_length (df : DataFrame) (fc : List String) :
    (build_sequence df fc).length = 10 := by
  unfold build_sequence
  simp only []
  split_ifs with h1 h2 h3 <;>
    simp_all [List.length_append, List.length_replicate, List.length_take]

theorem build_sequence_row_length (df : DataFrame) (fc : List String)
    (a : String) (l : List String) (h' : availableFeatures df fc = a :: l) :
    ∀ r ∈ build_sequence df fc, r.length = (a :: l).length := by
  intro r hr
  simp only [build_sequence, h', List.isEmpty_cons, Bool.false_eq_true,
    if_false] at hr
  split at hr
  · rcases List.mem_append.mp hr with h1 | h1
    · obtain ⟨x, hx, rfl⟩ := List.mem_map.mp h1
      exact selectRow_length _ _ _
    · rw [List.eq_of_mem_replicate h1]
      cases hgl : ((df.rows.take 10).map
          (selectRow (df.cols.map renameCol) (a :: l))).getLast? with
      | none => simp
      | some rr =>
          simp only [hgl]
          obtain ⟨x, hx, rfl⟩ :=
            List.mem_map.mp (List.mem_of_getLast?_eq_some hgl)
          exact selectRow_length _ _ _
  · obtain ⟨x, hx, rfl⟩ := List.mem_map.mp (List.take_subset _ _ hr)
    exact selectRow_length _ _ _

theorem fieldAt_eq {m : List (List ℚ)} {r : List ℚ} (hm : m.length = 10)
    (hr : m.getLast? = some r) (k idx : ℕ) (hk : k < 10) (dflt : ℚ) (v : ℚ)
    (hv : r[idx]? = some v) : fieldAt m k idx dflt = some v := by
  unfold fieldAt
  rw [if_pos (by omega), hr]
  simpa using hv

theorem latest_reading_isSome {m : List (List ℚ)} (hm : m.length = 10)
    (hw : ∀ r ∈ m, 5 ≤ r.length) : ∃ d, latest_reading m = some d := by
  have hne : m ≠ [] := by
    intro h
    rw [h] at hm
    simp at hm
  obtain ⟨r, hr⟩ : ∃ r, m.getLast? = some r := by
    cases hgl : m.getLast? with
    | none => exact absurd (List.getLast?_eq_none_iff.mp hgl) hne
    | some r => exact ⟨r, rfl⟩
  have hrl : 5 ≤ r.length := hw r (List.mem_of_getLast?_eq_some hr)
  have hex : ∀ i, i < 5 → ∃ v, r[i]? = some v := by
    intro i hi
    cases hv : r[i]? with
    | none => exact absurd (List.getElem?_eq_none_iff.mp hv) (by omega)
    | some v => exact ⟨v, rfl⟩
  obtain ⟨v0, hv0⟩ := hex 0 (by norm_num)
  obtain ⟨v1, hv1⟩ := hex 1 (by norm_num)
  obtain ⟨v2, hv2⟩ := hex 2 (by norm_num)
  obtain ⟨v3, hv3⟩ := hex 3 (by norm_num)
  obtain ⟨v4, hv4⟩ := hex 4 (by norm_num)
  refine ⟨⟨v0, v1, v2, v4, v3⟩, ?_⟩
  unfold latest_reading
  simp only [fieldAt_eq hm hr 0 0 (by norm_num) 7 v0 hv0,
    fieldAt_eq hm hr 1 1 (by norm_num) 25 v1 hv1,
    fieldAt_eq hm hr 2 2 (by norm_num) 300 v2 hv2,
    fieldAt_eq hm hr 3 3 (by norm_num) 5 v3 hv3,
    fieldAt_eq hm hr 4 4 (by norm_num) 2 v4 hv4,
    Option.some_bind]
  rfl

/-! ### predict_s3.py `preprocess_sensor_data` standardization -/

/-- predict_s3.py lines 115-122: the same substring-alias chain, taking each
matching column's last value directly (no NaN default fill). -/
def s3_standardize (colVals : List (String × ℚ)) : PartialSensor :=
  colVals.foldl
    (fun d kv =>
      let kl := stripStr (lowerStr kv.1)
      if strContains kl "ph" then { d with pH := some kv.2 }
      else if strContains kl "temp" then { d with Temperature := some kv.2 }
      else if strContains kl "tds" then { d with TDS := some kv.2 }
      else if strContains kl "turbidity" then { d with Turbidity := some kv.2 }
      else if strContains kl "do" || strContains kl "oxygen" then
        { d with DO := some kv.2 }
      else d)
    {}

/-- predict_s3.py line 125: `[data.get(col, 0) for col in columns]` — the
feature vector in recorded order, substituting 0 for any absent parameter. -/
def s3_feature_vector (d : PartialSensor) (featureCols : List String) :
    List ℚ :=
  featureCols.map fun c =>
    (if c = "pH" then d.pH
     else if c = "Temperature" then d.Temperature
     else if c = "TDS" then d.TDS
     else if c = "Turbidity" then d.Turbidity
     else if c = "DO" then d.DO
     else none).getD 0

/-- C7 counterexample: a frame whose canonical column order differs from the
recorded featureColumnOrder is processed successfully by predict.py's
preprocessing — no equality comparison is made and no InferenceError is
raised on the mismatch. -/
theorem c7_counterexample :
    ["Temperature", "pH", "TDS", "DO", "Turbidity"] ≠ recordedFeatures
    ∧ preprocess_sensor_data
        ⟨["Temperature", "pH", "TDS", "DO", "Turbidity"],
          [[25, 7, 300, 6, 2]]⟩ recordedFeatures
      = some (List.replicate 10 [7, 25, 300, 6, 2], ⟨7, 25, 300, 2, 6⟩) :=
  ⟨by decide, by decide⟩

/-- C7 amended: there is no order check at all. predict.py selects the
recorded features by NAME (silently reordering and silently dropping absent
columns) and preprocessing succeeds whenever at least five recorded features
are present — in any column order; predict_s3.py substitutes 0 for an absent
parameter and proceeds. The only failure mode is the uncaught IndexError of
the latest-reading extraction when fewer than five recorded columns
survive. -/
theorem c7_amended_no_order_check :
    (∀ (df : DataFrame) (fc : List String),
      5 ≤ (availableFeatures df fc).length
      → ∃ out, preprocess_sensor_data df fc = some out)
    ∧ s3_feature_vector
        (s3_standardize [("pH", 7), ("temp", 25), ("tds", 300),
          ("turbidity", 2)]) recordedFeatures
      = [7, 25, 300, 0, 2] := by
  refine ⟨?_, by decide⟩
  intro df fc h5
  cases h' : availableFeatures df fc with
  | nil => rw [h'] at h5; simp at h5
  | cons a l =>
      have hlen := build_sequence_length df fc
      have hw : ∀ r ∈ build_sequence df fc, 5 ≤ r.length := by
        intro r hr
        rw [build_sequence_row_length df fc a l h' r hr]
        rw [h'] at h5
        exact h5
      obtain ⟨d, hd⟩ := latest_reading_isSome hlen hw
      refine ⟨(build_sequence df fc, d), ?_⟩
      have hu : preprocess_sensor_data df fc
          = (latest_reading (build_sequence df fc)).map
              fun lr => (build_sequence df fc, lr) := rfl
      rw [hu, hd]
      rfl

/-- Witness for C7 amended: the universal no-failure part applied to the
permuted-order frame. -/
theorem c7_amended_no_order_check_witness :
    ∃ out, preprocess_sensor_data
      ⟨["Temperature", "pH", "TDS", "DO", "Turbidity"],
        [[25, 7, 300, 6, 2]]⟩ recordedFeatures = some out :=
  c7_amended_no_order_check.1 _ recordedFeatures (by decide)

/-! ### predict_s3.py `download_model_from_s3` — the Remote Model Cache

The cache loop (lines 59-67) checks `local_path.exists()` and otherwise
calls `s3_client.download_file(bucket, key, str(local_path))` with the FINAL
cache path as destination: no temporary location and no rename appear in the
repository's code. A download into that path is modelled by the standard
small-step decomposition of file I/O — the file is created at the
destination and its bytes appended one step at a time — with the environment
supplying each blob's total size. -/

/-- The artifact blobs of the fixed artifact set, by their local cache
names. -/
def model_files : List String :=
  ["model.h5", "scaler.pkl", "label_encoder.pkl", "feature_columns.json"]

/-- Cache-directory state: each present file with its bytes written so
far. -/
structure CacheState where
  files : List (String × ℕ)
deriving Repr, DecidableEq

/-- One step of cache activity under blob sizes `size`: `begin_download`
creates the empty destination file at its final cache path (the path the
code hands to the external download call), `write_chunk` appends one byte to
an in-progress download. -/
inductive CacheStep (size : String → ℕ) : CacheState → CacheState → Prop
  | begin_download (s : CacheState) (f : String) (hf : f ∈ model_files)
      (habs : s.files.lookup f = none) :
      CacheStep size s ⟨(f, 0) :: s.files⟩
  | write_chunk (s : CacheState) (f : String) (n : ℕ)
      (hmem : s.files.lookup f = some n) (hlt : n < size f) :
      CacheStep size s
        ⟨s.files.map fun p => if p.1 = f then (p.1, n + 1) else p⟩

/-- States reachable from the empty cache directory. -/
def CacheReachable (size : String → ℕ) (s : CacheState) : Prop :=
  Relation.ReflTransGen (CacheStep size) ⟨[]⟩ s

/-- A completed run of the ensure loop: every artifact absent from the cache
is downloaded in full at its final path; a file already present — whatever
its byte count — is left untouched and never re-validated. -/
def download_model_from_s3 (size : String → ℕ)
    (cache : List (String × ℕ)) : List (String × ℕ) :=
  model_files.foldl
    (fun c f => if (c.lookup f).isSome then c else (f, size f) :: c) cache

theorem download_loop_preserves (size : String → ℕ) (fs : List String)
    (cache : List (String × ℕ)) (f : String) (n : ℕ)
    (h : cache.lookup f = some n) :
    (fs.foldl
      (fun c g => if (c.lookup g).isSome then c else (g, size g) :: c)
      cache).lookup f = some n := by
  induction fs generalizing cache with
  | nil => exact h
  | cons g fs ih =>
      rw [List.foldl_cons]
      apply ih
      by_cases hg : (cache.lookup g).isSome
      · rw [if_pos hg]
        exact h
      · rw [if_neg hg]
        have hne : (f == g) = false := by
          by_cases hfg : f = g
          · subst hfg
            rw [h] at hg
            simp at hg
          · exact beq_eq_false_iff_ne.mpr hfg
        simp [List.lookup, hne]
        exact h

/-- C8 counterexample: with every blob one byte long, the state holding an
empty (0-byte) "model.h5" at its final cache path is reachable in one step
of the download — an artifact file is present in the cache but incomplete,
because the code downloads straight to the cache path with no temporary
location and no rename. -/
theorem c8_counterexample :
    CacheReachable (fun _ => 1) ⟨[("model.h5", 0)]⟩
    ∧ [("model.h5", 0)].lookup "model.h5" = some 0
    ∧ (0 : ℕ) ≠ (fun _ : String => 1) "model.h5" :=
  ⟨Relation.ReflTransGen.single
      (CacheStep.begin_download ⟨[]⟩ "model.h5" (by decide) rfl),
    by decide, by decide⟩

/-- C8 amended: the repository's cache code performs no temporary-location
download and no rename: each blob is fetched directly to its final cache
path, so a state in which a present artifact is still partial is reachable
for every artifact; and because population is guarded only by an existence
check, a file already present with any byte count (e.g. left by an
interrupted run) survives a completed ensure run unchanged, never completed
or re-validated. -/
theorem c8_amended_no_atomic_publish :
    (∀ (size : String → ℕ) (cache : List (String × ℕ)) (f : String) (n : ℕ),
      cache.lookup f = some n
      → (download_model_from_s3 size cache).lookup f = some n)
    ∧ (∀ (size : String → ℕ) (f : String), f ∈ model_files → 0 < size f
      → ∃ s : CacheState, CacheReachable size s
          ∧ s.files.lookup f = some 0
          ∧ s.files.lookup f ≠ some (size f)) := by
  constructor
  · intro size cache f n h
    exact download_loop_preserves size model_files cache f n h
  · intro size f hf hs
    refine ⟨⟨[(f, 0)]⟩, Relation.ReflTransGen.single
      (CacheStep.begin_download ⟨[]⟩ f hf rfl), ?_, ?_⟩
    · simp [List.lookup]
    · simp [List.lookup]
      omega

/-- Witness for C8 amended: a 0-byte "model.h5" left in the cache survives a
completed ensure run, and the partial-state existence applied to
"scaler.pkl" with one-byte blobs. -/
theorem c8_amended_no_atomic_publish_witness :
    (download_model_from_s3 (fun _ => 1)
      [("model.h5", 0)]).lookup "model.h5" = some 0
    ∧ ∃ s : CacheState, CacheReachable (fun _ => 1) s
        ∧ s.files.lookup "scaler.pkl" = some 0
        ∧ s.files.lookup "scaler.pkl" ≠ some 1 :=
  ⟨c8_amended_no_atomic_publish.1 (fun _ => 1) [("model.h5", 0)] "model.h5" 0
      (by decide),
    c8_amended_no_atomic_publish.2 (fun _ => 1) "scaler.pkl" (by decide)
      (by decide)⟩
